import Mathlib

/-!
Verification development for the connection-supervision subsystem of the
wtkdev repository: a shallow embedding of the Baileys error handler
(helpers/BaileysErrorHandler.ts), the tiered message cache and session
registry (libs/wbot.ts), and the QR / connection-close event handlers of
initWASocket, together with theorems settling the specification claims.
-/

namespace WtkDev

/-! ## Error classifier data model (BaileysErrorHandler.ts) -/

/-- Enum BaileysErrorCode from BaileysErrorHandler.ts. -/
inductive BaileysErrorCode where
  | CONNECTION_CLOSED
  | CONNECTION_LOST
  | CONNECTION_TIMEOUT
  | CONNECTION_REPLACED
  | AUTH_FAILURE
  | CREDENTIALS_INVALID
  | DEVICE_LOGGED_OUT
  | MULTI_DEVICE_MISMATCH
  | SESSION_EXPIRED
  | SESSION_INVALID
  | SESSION_CONFLICT
  | NETWORK_ERROR
  | RATE_LIMITED
  | SERVER_ERROR
  | PROTOCOL_ERROR
  | VERSION_MISMATCH
  | UNSUPPORTED_FEATURE
  | UNKNOWN_ERROR
deriving DecidableEq, Repr

/-- Enum ErrorSeverity from BaileysErrorHandler.ts. -/
inductive ErrorSeverity where
  | low
  | medium
  | high
  | critical
deriving DecidableEq, Repr

/-- Enum RecoveryStrategy from BaileysErrorHandler.ts. -/
inductive RecoveryStrategy where
  | RETRY
  | RECONNECT
  | RESTART_SESSION
  | CLEAR_CREDENTIALS
  | MANUAL_INTERVENTION
  | NO_RECOVERY
deriving DecidableEq, Repr

/-- Interface BaileysErrorInfo from BaileysErrorHandler.ts. Delays are in
milliseconds and are integer constants in the source. -/
structure BaileysErrorInfo where
  code : BaileysErrorCode
  severity : ErrorSeverity
  recoveryStrategy : RecoveryStrategy
  retryable : Bool
  maxRetries : Nat
  baseDelay : Nat
  maxDelay : Nat
  description : String
deriving DecidableEq, Repr

/-! Numeric values of the DisconnectReason enum of the external
@whiskeysockets/baileys dependency (Types/index), used as the keys of
DISCONNECT_REASON_MAPPING.  Note that connectionLost and timedOut share
the numeric value 408, so in the source object literal the timedOut
entry overwrites the connectionLost entry. -/

def DisconnectReason.badSession : Nat := 500
def DisconnectReason.connectionClosed : Nat := 428
def DisconnectReason.connectionLost : Nat := 408
def DisconnectReason.connectionReplaced : Nat := 440
def DisconnectReason.loggedOut : Nat := 401
def DisconnectReason.multideviceMismatch : Nat := 411
def DisconnectReason.restartRequired : Nat := 515
def DisconnectReason.timedOut : Nat := 408

/-- DISCONNECT_REASON_MAPPING entry for DisconnectReason.badSession. -/
def badSessionInfo : BaileysErrorInfo :=
  { code := .SESSION_INVALID, severity := .high,
    recoveryStrategy := .CLEAR_CREDENTIALS, retryable := true,
    maxRetries := 1, baseDelay := 5000, maxDelay := 10000,
    description := "Session is invalid and needs to be recreated" }

/-- DISCONNECT_REASON_MAPPING entry for DisconnectReason.connectionClosed. -/
def connectionClosedInfo : BaileysErrorInfo :=
  { code := .CONNECTION_CLOSED, severity := .medium,
    recoveryStrategy := .RECONNECT, retryable := true,
    maxRetries := 5, baseDelay := 2000, maxDelay := 30000,
    description := "Connection was closed unexpectedly" }

/-- DISCONNECT_REASON_MAPPING entry for DisconnectReason.connectionLost.
Its key (408) collides with the timedOut key, and since the timedOut entry
comes later in the object literal, this entry is overwritten and is never
the value of DISCONNECT_REASON_MAPPING at 408. -/
def connectionLostInfo : BaileysErrorInfo :=
  { code := .CONNECTION_LOST, severity := .medium,
    recoveryStrategy := .RECONNECT, retryable := true,
    maxRetries := 3, baseDelay := 3000, maxDelay := 15000,
    description := "Connection was lost due to network issues" }

/-- DISCONNECT_REASON_MAPPING entry for DisconnectReason.connectionReplaced. -/
def connectionReplacedInfo : BaileysErrorInfo :=
  { code := .CONNECTION_REPLACED, severity := .high,
    recoveryStrategy := .MANUAL_INTERVENTION, retryable := false,
    maxRetries := 0, baseDelay := 0, maxDelay := 0,
    description := "Connection was replaced by another session" }

/-- DISCONNECT_REASON_MAPPING entry for DisconnectReason.loggedOut. -/
def loggedOutInfo : BaileysErrorInfo :=
  { code := .DEVICE_LOGGED_OUT, severity := .critical,
    recoveryStrategy := .CLEAR_CREDENTIALS, retryable := true,
    maxRetries := 1, baseDelay := 1000, maxDelay := 5000,
    description := "Device was logged out from WhatsApp" }

/-- DISCONNECT_REASON_MAPPING entry for DisconnectReason.multideviceMismatch. -/
def multideviceMismatchInfo : BaileysErrorInfo :=
  { code := .MULTI_DEVICE_MISMATCH, severity := .high,
    recoveryStrategy := .CLEAR_CREDENTIALS, retryable := true,
    maxRetries := 2, baseDelay := 5000, maxDelay := 15000,
    description := "Multi-device configuration mismatch" }

/-- DISCONNECT_REASON_MAPPING entry for DisconnectReason.restartRequired. -/
def restartRequiredInfo : BaileysErrorInfo :=
  { code := .SESSION_EXPIRED, severity := .high,
    recoveryStrategy := .RESTART_SESSION, retryable := true,
    maxRetries := 3, baseDelay := 10000, maxDelay := 60000,
    description := "Session restart is required" }

/-- DISCONNECT_REASON_MAPPING entry for DisconnectReason.timedOut. -/
def timedOutInfo : BaileysErrorInfo :=
  { code := .CONNECTION_TIMEOUT, severity := .medium,
    recoveryStrategy := .RETRY, retryable := true,
    maxRetries := 4, baseDelay := 5000, maxDelay := 20000,
    description := "Connection timed out" }

/-- The DISCONNECT_REASON_MAPPING record of BaileysErrorHandler.ts as a
partial map on status codes.  Keys are the DisconnectReason numeric values;
at 408 the timedOut entry overwrites the earlier connectionLost entry of
the object literal. -/
def DISCONNECT_REASON_MAPPING (statusCode : Nat) : Option BaileysErrorInfo :=
  if statusCode = 500 then some badSessionInfo
  else if statusCode = 428 then some connectionClosedInfo
  else if statusCode = 408 then some timedOutInfo
  else if statusCode = 440 then some connectionReplacedInfo
  else if statusCode = 401 then some loggedOutInfo
  else if statusCode = 411 then some multideviceMismatchInfo
  else if statusCode = 515 then some restartRequiredInfo
  else none

/-- HTTP_STATUS_MAPPING entry for status 500. -/
def http500Info : BaileysErrorInfo :=
  { code := .SERVER_ERROR, severity := .medium,
    recoveryStrategy := .RETRY, retryable := true,
    maxRetries := 3, baseDelay := 5000, maxDelay := 30000,
    description := "Internal server error" }

/-- The HTTP_STATUS_MAPPING record of BaileysErrorHandler.ts as a partial
map on status codes. -/
def HTTP_STATUS_MAPPING (statusCode : Nat) : Option BaileysErrorInfo :=
  if statusCode = 400 then some
    { code := .PROTOCOL_ERROR, severity := .medium,
      recoveryStrategy := .RETRY, retryable := true,
      maxRetries := 2, baseDelay := 2000, maxDelay := 8000,
      description := "Bad request - protocol error" }
  else if statusCode = 401 then some
    { code := .AUTH_FAILURE, severity := .high,
      recoveryStrategy := .CLEAR_CREDENTIALS, retryable := true,
      maxRetries := 1, baseDelay := 5000, maxDelay := 10000,
      description := "Authentication failed" }
  else if statusCode = 403 then some
    { code := .CREDENTIALS_INVALID, severity := .high,
      recoveryStrategy := .CLEAR_CREDENTIALS, retryable := true,
      maxRetries := 1, baseDelay := 5000, maxDelay := 10000,
      description := "Invalid credentials" }
  else if statusCode = 404 then some
    { code := .SESSION_INVALID, severity := .medium,
      recoveryStrategy := .RESTART_SESSION, retryable := true,
      maxRetries := 2, baseDelay := 3000, maxDelay := 12000,
      description := "Session not found" }
  else if statusCode = 429 then some
    { code := .RATE_LIMITED, severity := .medium,
      recoveryStrategy := .RETRY, retryable := true,
      maxRetries := 3, baseDelay := 10000, maxDelay := 60000,
      description := "Rate limited - too many requests" }
  else if statusCode = 500 then some http500Info
  else if statusCode = 502 then some
    { code := .NETWORK_ERROR, severity := .medium,
      recoveryStrategy := .RETRY, retryable := true,
      maxRetries := 4, baseDelay := 3000, maxDelay := 20000,
      description := "Bad gateway - network error" }
  else if statusCode = 503 then some
    { code := .SERVER_ERROR, severity := .medium,
      recoveryStrategy := .RETRY, retryable := true,
      maxRetries := 5, baseDelay := 8000, maxDelay := 40000,
      description := "Service unavailable" }
  else none

/-- The output field of a Boom error.  A statusCode of 0 would be falsy in
the JavaScript truthiness tests of analyzeError; real Boom status codes are
at least 100. -/
structure BoomOutput where
  statusCode : Nat
deriving DecidableEq, Repr

/-- A raw failure value as probed by analyzeError: an arbitrary error
object that may carry a Boom output and a message string.  An absent
message is modelled as none; the source falls back to toString() and then
to the empty string, which we collapse to the empty string. -/
structure ErrObj where
  output : Option BoomOutput
  message : Option String
deriving DecidableEq, Repr

/-- The lastDisconnect context handed to analyzeError: it may carry the
Boom error of the disconnect. -/
structure LastDisconnect where
  error : Option ErrObj
deriving DecidableEq, Repr

/-- Substring test used to model the JavaScript String.includes calls of
analyzeError.  For a nonempty pattern, s.splitOn pat has at least two
pieces exactly when pat occurs in s. -/
def strContainsSub (s pat : String) : Bool :=
  (s.splitOn pat).length ≥ 2

/-- BaileysErrorHandler.analyzeError.  The resolution order of the source:
first the Boom HTTP status code of the error argument against
HTTP_STATUS_MAPPING, then the status code of lastDisconnect.error against
DISCONNECT_REASON_MAPPING, then substring matches on the error message,
then the UNKNOWN_ERROR default. -/
def analyzeError (error : Option ErrObj) (lastDisconnect : Option LastDisconnect) :
    BaileysErrorInfo :=
  let fromHttp : Option BaileysErrorInfo :=
    match error with
    | some e =>
      match e.output with
      | some o => if o.statusCode ≠ 0 then HTTP_STATUS_MAPPING o.statusCode else none
      | none => none
    | none => none
  match fromHttp with
  | some info => info
  | none =>
    let fromDisconnect : Option BaileysErrorInfo :=
      match lastDisconnect with
      | some ld =>
        match ld.error with
        | some boom =>
          match boom.output with
          | some o =>
            if o.statusCode ≠ 0 then DISCONNECT_REASON_MAPPING o.statusCode else none
          | none => none
        | none => none
      | none => none
    match fromDisconnect with
    | some info => info
    | none =>
      let errorMessage : String :=
        match error with
        | some e => match e.message with | some m => m | none => ""
        | none => ""
      if strContainsSub errorMessage "timeout" then
        { code := .CONNECTION_TIMEOUT, severity := .medium,
          recoveryStrategy := .RETRY, retryable := true,
          maxRetries := 3, baseDelay := 5000, maxDelay := 20000,
          description := "Operation timed out" }
      else if strContainsSub errorMessage "network" ||
          strContainsSub errorMessage "ENOTFOUND" ||
          strContainsSub errorMessage "ECONNRESET" then
        { code := .NETWORK_ERROR, severity := .medium,
          recoveryStrategy := .RETRY, retryable := true,
          maxRetries := 4, baseDelay := 3000, maxDelay := 15000,
          description := "Network connectivity error" }
      else if strContainsSub errorMessage "version" ||
          strContainsSub errorMessage "protocol" then
        { code := .VERSION_MISMATCH, severity := .high,
          recoveryStrategy := .RESTART_SESSION, retryable := true,
          maxRetries := 2, baseDelay := 10000, maxDelay := 30000,
          description := "Protocol or version mismatch" }
      else
        { code := .UNKNOWN_ERROR, severity := .medium,
          recoveryStrategy := .RETRY, retryable := true,
          maxRetries := 2, baseDelay := 5000, maxDelay := 15000,
          description := "Unknown error occurred" }

/-- BaileysErrorHandler.calculateRetryDelay over exact rationals.  The
jitter draw (Math.random() - 0.5) * 2 is abstracted by the parameter j,
which ranges over [-1, 1]; the source adds j times ten percent of the
clamped delay and finally clamps from below by baseDelay. -/
def calculateRetryDelay (attempt : Nat) (baseDelay maxDelay backoffMultiplier : ℚ)
    (jitter : Bool) (j : ℚ) : ℚ :=
  let exponentialDelay := baseDelay * backoffMultiplier ^ (attempt - 1)
  let delay := min exponentialDelay maxDelay
  let delay2 := if jitter then delay + j * (delay * (1 / 10)) else delay
  max delay2 baseDelay

/-- Interface SessionRecoveryState from BaileysErrorHandler.ts.  The Date
value lastRetryTime is modelled as a natural clock value. -/
structure SessionRecoveryState where
  whatsappId : Nat
  retryCount : Nat
  lastError : BaileysErrorCode
  lastRetryTime : Nat
  recoveryInProgress : Bool
  consecutiveFailures : Nat
deriving DecidableEq, Repr

/-- The module-level sessionRecoveryStates Map, as an association list. -/
abbrev RecoveryMap := List (Nat × SessionRecoveryState)

/-- Map.set: replace or insert the entry for a key. -/
def mapSet (k : Nat) (v : SessionRecoveryState) (m : RecoveryMap) : RecoveryMap :=
  (k, v) :: m.filter (fun p => p.1 ≠ k)

/-- BaileysErrorHandler.isRetryable, reading the recovery map.  The checks
appear in the order of the source: the classification retryable flag, the
absent-state early true, the retry ceiling, the circuit breaker at 10
consecutive failures, and the recovery-in-progress guard. -/
def isRetryable (states : RecoveryMap) (whatsappId : Nat)
    (errorInfo : BaileysErrorInfo) : Bool :=
  let recoveryState := states.lookup whatsappId
  if !errorInfo.retryable then false
  else
    match recoveryState with
    | none => true
    | some st =>
      if st.retryCount ≥ errorInfo.maxRetries then false
      else if st.consecutiveFailures ≥ 10 then false
      else if st.recoveryInProgress then false
      else true

/-- BaileysErrorHandler.updateRecoveryState.  now stands for the Date
captured by the source at the call. -/
def updateRecoveryState (whatsappId : Nat) (errorCode : BaileysErrorCode)
    (success : Bool) (now : Nat) (m : RecoveryMap) : RecoveryMap :=
  let state : SessionRecoveryState :=
    match m.lookup whatsappId with
    | some st => st
    | none =>
      { whatsappId := whatsappId, retryCount := 0, lastError := errorCode,
        lastRetryTime := now, recoveryInProgress := false,
        consecutiveFailures := 0 }
  let state2 :=
    if success then
      { state with
        retryCount := 0, consecutiveFailures := 0,
        recoveryInProgress := false }
    else
      { state with
        retryCount := state.retryCount + 1,
        consecutiveFailures := state.consecutiveFailures + 1,
        lastError := errorCode, lastRetryTime := now }
  mapSet whatsappId state2 m

/-- BaileysErrorHandler.setRecoveryInProgress: only mutates an existing
entry. -/
def setRecoveryInProgress (whatsappId : Nat) (inProgress : Bool)
    (m : RecoveryMap) : RecoveryMap :=
  match m.lookup whatsappId with
  | none => m
  | some st => mapSet whatsappId { st with recoveryInProgress := inProgress } m

/-- BaileysErrorHandler.clearRecoveryState: Map.delete. -/
def clearRecoveryState (whatsappId : Nat) (m : RecoveryMap) : RecoveryMap :=
  m.filter (fun p => p.1 ≠ whatsappId)

/-! ## Tiered message cache (libs/wbot.ts, msg()) -/

/-- The enhanced message object the cache serializes: the opaque message
payload together with the _accessCount and _cachedAt metadata added by
save.  An absent message field is modelled as none, matching the
msg?.message read of get. -/
structure CachedMsg where
  message : Option String
  accessCount : Nat
  cachedAt : Nat
deriving DecidableEq, Repr

/-- A string stored in a NodeCache tier: either the JSON serialization of
a CachedMsg or a corrupt string on which JSON.parse throws. -/
inductive Payload where
  | json (m : CachedMsg)
  | corrupt
deriving DecidableEq, Repr

/-- JSON.parse on a cached payload: throws on a corrupt string. -/
def parsePayload : Payload → Except Unit CachedMsg
  | .json m => .ok m
  | .corrupt => .error ()

/-- One NodeCache tier, as an association list keyed by message id. -/
abbrev CacheStore := List (String × Payload)

/-- NodeCache.set: replace or insert the entry for a key. -/
def cacheSet (k : String) (v : Payload) (store : CacheStore) : CacheStore :=
  (k, v) :: store.filter (fun p => p.1 ≠ k)

/-- NodeCache.del: returns the number of deleted entries (0 or 1 here)
together with the updated store. -/
def cacheDel (k : String) (store : CacheStore) : Nat × CacheStore :=
  if (store.lookup k).isSome then (1, store.filter (fun p => p.1 ≠ k))
  else (0, store)

/-- The two cache tiers of wbot.ts plus the cacheMetrics counters touched
by get, save, delete and clear. -/
structure CacheState where
  msgCache : CacheStore
  hotMsgCache : CacheStore
  hits : Nat
  misses : Nat
  saves : Nat
  errors : Nat
  hotCacheHits : Nat
  totalSize : Nat
deriving DecidableEq, Repr

/-- cacheMetrics.totalSize := msgCache.keys().length + hotMsgCache.keys().length. -/
def updateTotalSize (st : CacheState) : CacheState :=
  { st with totalSize := st.msgCache.length + st.hotMsgCache.length }

/-- The try block of msg().get for a truthy id.  An error value carries
the state at throw time, since the metric increments performed before
JSON.parse persist in the module state. -/
def getBody (id : String) (st : CacheState) :
    Except CacheState (Option String × CacheState) :=
  match (st.hotMsgCache.lookup id) with
  | some data =>
    let st1 := { st with
      hotCacheHits := st.hotCacheHits + 1, hits := st.hits + 1 }
    match parsePayload data with
    | .error _ => .error st1
    | .ok m => .ok (m.message, st1)
  | none =>
    match (st.msgCache.lookup id) with
    | some data =>
      let st1 := { st with hits := st.hits + 1 }
      match parsePayload data with
      | .error _ => .error st1
      | .ok m =>
        let accessCount := m.accessCount + 1
        let m2 := { m with accessCount := accessCount }
        if accessCount ≥ 3 then
          .ok (m2.message,
            { st1 with hotMsgCache := cacheSet id (.json m2) st1.hotMsgCache })
        else
          .ok (m2.message,
            { st1 with msgCache := cacheSet id (.json m2) st1.msgCache })
    | none => .ok (none, { st with misses := st.misses + 1 })

/-- msg().get.  A falsy id (absent or empty) returns undefined without
touching the state; any exception of the try block is caught, counted in
the errors metric, and turned into undefined. -/
def getMsg (keyId : Option String) (st : CacheState) :
    Option String × CacheState :=
  match keyId with
  | none => (none, st)
  | some id =>
    if id = "" then (none, st)
    else
      match getBody id st with
      | .ok r => r
      | .error stE => (none, { stE with errors := stE.errors + 1 })

/-- A WAMessage as far as the cache is concerned: its key id, its opaque
message content, and whether JSON.stringify succeeds on it (stringify can
throw, e.g. on circular structures). -/
structure WAMsg where
  keyId : Option String
  message : Option String
  serializable : Bool
deriving DecidableEq, Repr

/-- The try block of msg().save for a truthy id: build the enhanced
message with _cachedAt := now and _accessCount := 0, serialize it and
store it in the cold tier, then bump the saves counter and totalSize. -/
def saveBody (m : WAMsg) (id : String) (now : Nat) (st : CacheState) :
    Except CacheState CacheState :=
  if m.serializable then
    .ok (updateTotalSize
      { st with
        msgCache := cacheSet id (.json ⟨m.message, 0, now⟩) st.msgCache,
        saves := st.saves + 1 })
  else .error st

/-- msg().save.  A falsy id returns without writing; an exception of the
try block is caught and counted in the errors metric. -/
def saveMsg (m : WAMsg) (now : Nat) (st : CacheState) : CacheState :=
  match m.keyId with
  | none => st
  | some id =>
    if id = "" then st
    else
      match saveBody m id now st with
      | .ok st2 => st2
      | .error stE => { stE with errors := stE.errors + 1 }

/-- msg().delete: msgCache.del(id) || hotMsgCache.del(id) with JavaScript
short-circuiting, then a totalSize update when something was deleted.
Nothing in the body can throw, so the catch arm of the source is
unreachable here. -/
def deleteMsg (id : String) (st : CacheState) : Nat × CacheState :=
  let cold := cacheDel id st.msgCache
  if cold.1 ≠ 0 then
    (cold.1, updateTotalSize { st with msgCache := cold.2 })
  else
    let hot := cacheDel id st.hotMsgCache
    if hot.1 ≠ 0 then
      (hot.1, updateTotalSize { st with msgCache := cold.2, hotMsgCache := hot.2 })
    else (hot.1, { st with msgCache := cold.2, hotMsgCache := hot.2 })

/-- msg().clear: flush both tiers and zero totalSize. -/
def clearMsg (st : CacheState) : CacheState :=
  { st with msgCache := [], hotMsgCache := [], totalSize := 0 }

/-- The empty cache state. -/
def emptyCacheState : CacheState :=
  { msgCache := [], hotMsgCache := [], hits := 0, misses := 0, saves := 0,
    errors := 0, hotCacheHits := 0, totalSize := 0 }

/-! ## Session registry and connection-close recovery (libs/wbot.ts) -/

/-- A session handle in the sessions array: the socket with its id field
set.  The socket internals are opaque to the registry operations. -/
structure SessionH where
  id : Nat
deriving DecidableEq, Repr

/-- World state touched by the wbot registry and the connection-close
recovery branches: the sessions array, the recovery-state map, the
tenant record fields written by whatsapp.update, and flags recording the
external effects (credential clearing, Baileys data deletion, event-bus
publishes, scheduled re-initializations, logout and transport close). -/
structure WbotState where
  sessions : List SessionH
  recoveryStates : RecoveryMap
  whatsappStatus : String
  whatsappSession : String
  whatsappRetries : Nat
  credsCleared : Bool
  baileysDeleted : Bool
  emittedUpdates : Nat
  scheduledRetries : Nat
  failedConnections : Nat
  loggedOut : Bool
  wsClosed : Bool
deriving DecidableEq, Repr

/-- sessions.splice(sessions.findIndex(...), 1): remove the first session
with the given id, leaving the list unchanged when none matches. -/
def eraseFirstSession (whatsappId : Nat) : List SessionH → List SessionH
  | [] => []
  | x :: xs =>
    if x.id = whatsappId then xs else x :: eraseFirstSession whatsappId xs

/-- The isLogout block of removeWbot: try session.logout() catch log;
try session.ws.close() catch log.  The Boolean parameters say whether
each awaited call throws; a throwing call leaves its effect flag
unset. -/
def logoutAttempt (logoutThrows closeThrows : Bool) (s : WbotState) : WbotState :=
  let sA := if logoutThrows then s else { s with loggedOut := true }
  if closeThrows then sA else { sA with wsClosed := true }

/-- removeWbot.  The two Boolean parameters say whether the awaited
session.logout() and the session.ws.close() calls throw; each sits in its
own inner try/catch that only logs.  The outer try/catch makes the whole
operation return normally in every case. -/
def removeWbot (logoutThrows closeThrows : Bool) (whatsappId : Nat)
    (isLogout : Bool) (s : WbotState) : Except WbotState WbotState :=
  let body : Except WbotState WbotState :=
    if s.sessions.any (fun x => x.id == whatsappId) then
      let s1 := if isLogout then logoutAttempt logoutThrows closeThrows s else s
      .ok { s1 with sessions := eraseFirstSession whatsappId s1.sessions }
    else
      .ok s
  match body with
  | .ok r => .ok r
  | .error e => .ok e

/-- getWbot: find the session by id; absence throws
AppError ERR_WAPP_NOT_INITIALIZED, modelled as the Except error carrying
the AppError message. -/
def getWbot (s : WbotState) (whatsappId : Nat) : Except String SessionH :=
  match s.sessions.find? (fun x => x.id == whatsappId) with
  | none => .error "ERR_WAPP_NOT_INITIALIZED"
  | some sess => .ok sess

/-- Which awaited external collaborator calls of the recovery branches
throw: clearCredentials, whatsapp.update, DeleteBaileysService and the
event-bus emit. -/
structure Faults where
  clearCredsThrows : Bool
  updateThrows : Bool
  deleteBaileysThrows : Bool
  emitThrows : Bool
deriving DecidableEq, Repr

/-- removeWbot(id, false) as used inside the close handler: with logout
not requested it deterministically erases the first matching session and
cannot throw. -/
def removeWbotNoLogout (whatsappId : Nat) (s : WbotState) : WbotState :=
  { s with sessions := eraseFirstSession whatsappId s.sessions }

/-- setTimeout(... StartWhatsAppSession ...) at the end of a retrying
branch: record that a deferred re-initialize was scheduled. -/
def scheduleRetry (s : WbotState) : WbotState :=
  { s with scheduledRetries := s.scheduledRetries + 1 }

/-- await clearCredentials() effect. -/
def doClearCredentials (s : WbotState) : WbotState :=
  { s with credsCleared := true }

/-- await whatsapp.update with status PENDING and session cleared. -/
def doUpdatePendingClearSession (s : WbotState) : WbotState :=
  { s with whatsappStatus := "PENDING", whatsappSession := "" }

/-- await DeleteBaileysService effect. -/
def doDeleteBaileys (s : WbotState) : WbotState :=
  { s with baileysDeleted := true }

/-- io.of(...).emit of a whatsappSession update. -/
def doEmitUpdate (s : WbotState) : WbotState :=
  { s with emittedUpdates := s.emittedUpdates + 1 }

/-- await whatsapp.update with status PENDING only. -/
def doUpdatePending (s : WbotState) : WbotState :=
  { s with whatsappStatus := "PENDING" }

/-- await whatsapp.update of the manual-intervention branch: status
PENDING, session cleared, persisted retries incremented. -/
def doUpdateManual (s : WbotState) : WbotState :=
  { s with
    whatsappStatus := "PENDING", whatsappSession := "",
    whatsappRetries := s.whatsappRetries + 1 }

/-- BaileysErrorHandler.clearRecoveryState lifted to the world state. -/
def doClearRecoveryState (whatsappId : Nat) (s : WbotState) : WbotState :=
  { s with recoveryStates := clearRecoveryState whatsappId s.recoveryStates }

/-- Run a sequence of awaited external calls; each either throws (the
error carries the state reached so far) or applies its effect. -/
def extSeq : List (Bool × (WbotState → WbotState)) → WbotState →
    Except WbotState WbotState
  | [], s => .ok s
  | (t, f) :: rest, s => if t then .error s else extSeq rest (f s)

/-- The body of the try block of the close handler: the switch over
errorInfo.recoveryStrategy, one arm per recovery strategy, in the order
and with the effects of the source. -/
def runBranch (flt : Faults) (strategy : RecoveryStrategy) (whatsappId : Nat)
    (s : WbotState) : Except WbotState WbotState :=
  match strategy with
  | .CLEAR_CREDENTIALS =>
    match extSeq
      [(flt.clearCredsThrows, doClearCredentials),
       (flt.updateThrows, doUpdatePendingClearSession),
       (flt.deleteBaileysThrows, doDeleteBaileys),
       (flt.emitThrows, doEmitUpdate)] s with
    | .error e => .error e
    | .ok s2 => .ok (scheduleRetry (removeWbotNoLogout whatsappId s2))
  | .RECONNECT => .ok (scheduleRetry (removeWbotNoLogout whatsappId s))
  | .RETRY => .ok (scheduleRetry (removeWbotNoLogout whatsappId s))
  | .RESTART_SESSION =>
    match extSeq [(flt.updateThrows, doUpdatePending)] s with
    | .error e => .error e
    | .ok s2 => .ok (scheduleRetry (removeWbotNoLogout whatsappId s2))
  | .MANUAL_INTERVENTION =>
    match extSeq
      [(flt.updateThrows, doUpdateManual),
       (flt.emitThrows, doEmitUpdate)] s with
    | .error e => .error e
    | .ok s2 => .ok (doClearRecoveryState whatsappId (removeWbotNoLogout whatsappId s2))
  | .NO_RECOVERY => .ok (doClearRecoveryState whatsappId (removeWbotNoLogout whatsappId s))

/-- The state mutations the close handler performs between the retryable
check and the switch: metrics update, updateRecoveryState on failure,
setRecoveryInProgress true. -/
def preBranch (whatsappId : Nat) (code : BaileysErrorCode) (now : Nat)
    (s : WbotState) : WbotState :=
  let s1 := { s with failedConnections := s.failedConnections + 1 }
  let s2 := { s1 with
    recoveryStates := updateRecoveryState whatsappId code false now s1.recoveryStates }
  { s2 with
    recoveryStates := setRecoveryInProgress whatsappId true s2.recoveryStates }

/-- The connection-close arm of the connection.update handler of
initWASocket: classify (the caller passes errorInfo), check
retryability, either take the terminal path, or update recovery state
and dispatch the strategy switch guarded by try/catch.  The catch arm
clears recovery-in-progress, removes the session, and returns normally,
so the result is always ok. -/
def closeHandler (flt : Faults) (info : BaileysErrorInfo) (whatsappId : Nat)
    (now : Nat) (s : WbotState) : Except WbotState WbotState :=
  let s1 := { s with failedConnections := s.failedConnections + 1 }
  if isRetryable s1.recoveryStates whatsappId info then
    match runBranch flt info.recoveryStrategy whatsappId (preBranch whatsappId info.code now s) with
    | .ok s3 => .ok s3
    | .error sE =>
      .ok (removeWbotNoLogout whatsappId
        { sE with
          recoveryStates := setRecoveryInProgress whatsappId false sE.recoveryStates })
  else
    .ok (removeWbotNoLogout whatsappId
      { s1 with recoveryStates := clearRecoveryState whatsappId s1.recoveryStates })

/-! ## QR event handling (initWASocket connection.update qr branch) -/

/-- Per-tenant state touched by the QR branch of the connection.update
handler: the retriesQrCodeMap entry for this tenant, the retriesQrCode
local of the enclosing initWASocket call, the sessions array, the tenant
record fields, and flags for credential clearing (the
cacheLayer.delFromPattern of the session key prefix, where
useMultiFileAuthState keeps all auth blobs), DeleteBaileysService,
listener removal and socket closing. -/
structure QrState where
  mapEntry : Option Nat
  localRetries : Nat
  sessions : List SessionH
  status : String
  qrcode : String
  credsCleared : Bool
  baileysDeleted : Bool
  listening : Bool
  socketClosed : Bool
  emittedUpdates : Nat
  whatsappRetries : Nat
deriving DecidableEq, Repr

/-- The guard retriesQrCodeMap.get(id) && retriesQrCodeMap.get(id) >= 3:
an absent entry is undefined (falsy), a zero entry is falsy, otherwise
compare with 3. -/
def qrCeilingReached : Option Nat → Bool
  | some n => decide (n ≠ 0) && decide (3 ≤ n)
  | none => false

/-- One QR event delivered to the connection.update handler.  When the
listeners have been removed nothing runs.  Otherwise, the ceiling branch
sets the tenant DISCONNECTED, deletes the Baileys data, clears the cached
credentials, publishes an update, removes the listeners, closes the
socket and deletes the map entry; the normal branch increments the local
counter into the map, publishes the QR payload on the tenant record, and
registers the session if absent. -/
def qrStep (whatsappId : Nat) (qr : String) (s : QrState) : QrState :=
  if !s.listening then s
  else if qrCeilingReached s.mapEntry then
    { s with
      status := "DISCONNECTED", qrcode := "",
      baileysDeleted := true, credsCleared := true,
      emittedUpdates := s.emittedUpdates + 1,
      listening := false, socketClosed := true, mapEntry := none }
  else
    let newLocal := s.localRetries + 1
    let s1 := { s with
      localRetries := newLocal, mapEntry := some newLocal,
      qrcode := qr, status := "qrcode", whatsappRetries := 0 }
    let s2 :=
      if s1.sessions.any (fun x => x.id == whatsappId) then s1
      else { s1 with sessions := s1.sessions ++ [⟨whatsappId⟩] }
    { s2 with emittedUpdates := s2.emittedUpdates + 1 }

/-- The state of a freshly initialized session that has not yet produced
any QR or connection event: empty map entry, zero local counter, not yet
registered. -/
def initQrState : QrState :=
  { mapEntry := none, localRetries := 0, sessions := [],
    status := "OPENING", qrcode := "", credsCleared := false,
    baileysDeleted := false, listening := true, socketClosed := false,
    emittedUpdates := 0, whatsappRetries := 0 }

/-- Deliver a list of QR events in order. -/
def qrEvents (whatsappId : Nat) (qrs : List String) (s : QrState) : QrState :=
  qrs.foldl (fun acc q => qrStep whatsappId q acc) s

/-! ## Concrete fixtures used by counterexamples and witnesses -/

/-- The Boom error Baileys produces for a badSession disconnect: its
output.statusCode is DisconnectReason.badSession (500). -/
def badSessionBoom : ErrObj :=
  { output := some ⟨DisconnectReason.badSession⟩, message := some "Bad Session" }

/-- A recovery state whose retryCount has reached the badSession retry
ceiling. -/
def recoveryStateAtCeiling : SessionRecoveryState :=
  { whatsappId := 1, retryCount := 2, lastError := .SESSION_INVALID,
    lastRetryTime := 0, recoveryInProgress := false, consecutiveFailures := 2 }

/-- A recovery state that tripped the circuit breaker while its retryCount
is still below every ceiling of the policy tables. -/
def recoveryStateTripped : SessionRecoveryState :=
  { whatsappId := 1, retryCount := 0, lastError := .CONNECTION_CLOSED,
    lastRetryTime := 0, recoveryInProgress := false, consecutiveFailures := 10 }

/-- A serializable message with id m1. -/
def wamsgM1 : WAMsg :=
  { keyId := some "m1", message := some "hello", serializable := true }

/-- A message whose key id is null. -/
def wamsgNoId : WAMsg :=
  { keyId := none, message := some "x", serializable := true }

/-- A message on which JSON.stringify throws. -/
def wamsgBad : WAMsg :=
  { keyId := some "m2", message := some "y", serializable := false }

/-- Cache state after saving m1 at clock 100. -/
def cacheAfterSave : CacheState := saveMsg wamsgM1 100 emptyCacheState

/-- Cache state after saving m1 and reading it twice (accessCount 2 in the
cold tier). -/
def cacheAfterTwoGets : CacheState :=
  (getMsg (some "m1") (getMsg (some "m1") cacheAfterSave).2).2

/-- Cache state after saving m1 and reading it three times: the third read
promotes into the hot tier. -/
def cacheAfterThreeGets : CacheState :=
  (getMsg (some "m1") cacheAfterTwoGets).2

/-- A cache whose hot tier holds an unparseable payload. -/
def cacheWithCorruptHot : CacheState :=
  { emptyCacheState with hotMsgCache := [("c1", .corrupt)] }

/-- A cache whose cold tier holds an unparseable payload. -/
def cacheWithCorruptCold : CacheState :=
  { emptyCacheState with msgCache := [("c2", .corrupt)] }

/-- A world with one registered session (id 1) and no recovery state. -/
def wbotStateOne : WbotState :=
  { sessions := [⟨1⟩], recoveryStates := [], whatsappStatus := "CONNECTED",
    whatsappSession := "sess", whatsappRetries := 0, credsCleared := false,
    baileysDeleted := false, emittedUpdates := 0, scheduledRetries := 0,
    failedConnections := 0, loggedOut := false, wsClosed := false }

/-- Faults making the awaited clearCredentials call throw. -/
def faultsClearCreds : Faults :=
  { clearCredsThrows := true, updateThrows := false,
    deleteBaileysThrows := false, emitThrows := false }

/-! ## Theorems -/

/-- Helper: looking up the key just set by mapSet. -/
theorem mapSet_lookup_self (k : Nat) (v : SessionRecoveryState) (m : RecoveryMap) :
    (mapSet k v m).lookup k = some v := by
  simp [mapSet, List.lookup]

/-- Helper: after setRecoveryInProgress, any entry found at that id has
the written flag. -/
theorem setRecoveryInProgress_lookup_self (whatsappId : Nat) (b : Bool)
    (m : RecoveryMap) (st : SessionRecoveryState)
    (h : (setRecoveryInProgress whatsappId b m).lookup whatsappId = some st) :
    st.recoveryInProgress = b := by
  unfold setRecoveryInProgress at h
  cases hm : m.lookup whatsappId with
  | none => rw [hm] at h; rw [hm] at h; exact absurd h (by simp [hm])
  | some st0 =>
    rw [hm] at h
    rw [mapSet_lookup_self] at h
    cases h
    rfl

/-- C1.  Counterexample: when the close handler calls
analyzeError(lastDisconnect.error, lastDisconnect) for a badSession
disconnect, the Boom status code 500 matches the HTTP_STATUS_MAPPING
entry consulted first, so the classification is SERVER_ERROR, not the
SESSION_INVALID / CLEAR_CREDENTIALS / 1-retry entry the claim states. -/
theorem c1_counterexample :
    (analyzeError (some badSessionBoom) (some { error := some badSessionBoom })).code
      = BaileysErrorCode.SERVER_ERROR ∧
    ¬ ((analyzeError (some badSessionBoom) (some { error := some badSessionBoom })).code
        = BaileysErrorCode.SESSION_INVALID ∧
      (analyzeError (some badSessionBoom) (some { error := some badSessionBoom })).recoveryStrategy
        = RecoveryStrategy.CLEAR_CREDENTIALS ∧
      (analyzeError (some badSessionBoom) (some { error := some badSessionBoom })).maxRetries = 1) := by
  constructor
  · rfl
  · intro h
    exact absurd h.1 (by decide)

/-- C1 (amended).  For every raw failure whose Boom output carries the
badSession status code (500), analyzeError called as in the close handler
returns the HTTP 500 classification SERVER_ERROR / RETRY / 3 retries,
because the transport-level HTTP status-code table is consulted before the
protocol disconnect table and 500 matches its internal-server-error
entry. -/
theorem c1_badSession_resolves_to_server_error (e : ErrObj)
    (ld : Option LastDisconnect)
    (h : e.output = some ⟨DisconnectReason.badSession⟩) :
    analyzeError (some e) ld = http500Info := by
  simp [analyzeError, h, DisconnectReason.badSession, HTTP_STATUS_MAPPING]

/-- C1 witness: the amended theorem applied to the concrete badSession
Boom error. -/
theorem c1_witness :
    badSessionBoom.output = some ⟨DisconnectReason.badSession⟩ ∧
    analyzeError (some badSessionBoom) (some { error := some badSessionBoom }) = http500Info :=
  ⟨rfl, c1_badSession_resolves_to_server_error badSessionBoom
    (some { error := some badSessionBoom }) rfl⟩

/-- C4.  For attempt ≥ 1, multiplier 2, jitter on with any jitter draw j
in [-1, 1], and 0 < baseDelay ≤ maxDelay, the delay computed by
calculateRetryDelay lies between baseDelay and maxDelay times 1.1. -/
theorem c4_backoff_bounds (attempt : Nat) (baseDelay maxDelay j : ℚ)
    (_hattempt : 1 ≤ attempt) (hbase : 0 < baseDelay)
    (hbm : baseDelay ≤ maxDelay) (hj1 : -1 ≤ j) (hj2 : j ≤ 1) :
    baseDelay ≤ calculateRetryDelay attempt baseDelay maxDelay 2 true j ∧
    calculateRetryDelay attempt baseDelay maxDelay 2 true j ≤ maxDelay * (11 / 10) := by
  unfold calculateRetryDelay
  simp only [if_true]
  constructor
  · exact le_max_right _ _
  · have hd1 : min (baseDelay * (2:ℚ) ^ (attempt - 1)) maxDelay ≤ maxDelay :=
      min_le_right _ _
    have hd0 : (0:ℚ) ≤ min (baseDelay * (2:ℚ) ^ (attempt - 1)) maxDelay :=
      le_min (mul_nonneg hbase.le (by positivity)) (hbase.le.trans hbm)
    apply max_le
    · nlinarith
    · nlinarith

/-- C4 witness: the bounds at attempt 1, baseDelay 5000, maxDelay 10000,
jitter draw 1. -/
theorem c4_witness :
    (1 ≤ 1 ∧ (0:ℚ) < 5000 ∧ (5000:ℚ) ≤ 10000 ∧ (-1:ℚ) ≤ 1 ∧ (1:ℚ) ≤ 1) ∧
    (5000 ≤ calculateRetryDelay 1 5000 10000 2 true 1 ∧
      calculateRetryDelay 1 5000 10000 2 true 1 ≤ 10000 * (11 / 10)) :=
  ⟨⟨le_refl 1, by norm_num, by norm_num, by norm_num, by norm_num⟩,
    c4_backoff_bounds 1 5000 10000 1 (le_refl 1) (by norm_num) (by norm_num)
      (by norm_num) (by norm_num)⟩

/-- C5.  For a session id with an existing recovery state whose
retryCount has reached the classification maxRetries, isRetryable
returns false. -/
theorem c5_retry_ceiling (states : RecoveryMap) (whatsappId : Nat)
    (info : BaileysErrorInfo) (st : SessionRecoveryState)
    (hlook : states.lookup whatsappId = some st)
    (hceil : st.retryCount ≥ info.maxRetries) :
    isRetryable states whatsappId info = false := by
  cases hr : info.retryable <;>
    simp [isRetryable, hlook, hr, hceil]

/-- C5 witness: a state with retryCount 2 against the badSession
classification (maxRetries 1). -/
theorem c5_witness :
    ([(1, recoveryStateAtCeiling)] : RecoveryMap).lookup 1 = some recoveryStateAtCeiling ∧
    recoveryStateAtCeiling.retryCount ≥ badSessionInfo.maxRetries ∧
    isRetryable [(1, recoveryStateAtCeiling)] 1 badSessionInfo = false :=
  ⟨rfl, by decide,
    c5_retry_ceiling [(1, recoveryStateAtCeiling)] 1 badSessionInfo
      recoveryStateAtCeiling rfl (by decide)⟩

/-- C6.  For a session id with an existing recovery state whose
consecutiveFailures has reached the circuit-breaker threshold 10,
isRetryable returns false for every classification. -/
theorem c6_circuit_breaker (states : RecoveryMap) (whatsappId : Nat)
    (info : BaileysErrorInfo) (st : SessionRecoveryState)
    (hlook : states.lookup whatsappId = some st)
    (hcb : st.consecutiveFailures ≥ 10) :
    isRetryable states whatsappId info = false := by
  cases hr : info.retryable <;>
    simp [isRetryable, hlook, hr, hcb]

/-- Helper: looking up the key just set by cacheSet. -/
theorem cacheSet_lookup_self (k : String) (v : Payload) (store : CacheStore) :
    (cacheSet k v store).lookup k = some v := by
  simp [cacheSet, List.lookup]

/-- C2.  Counterexample: after save(m1) and three reads of m1 the third
read promotes the entry into the hot tier by copying, leaving the cold
entry in place, so the id is present in both tiers at once. -/
theorem c2_counterexample :
    (cacheAfterThreeGets.msgCache.lookup "m1").isSome = true ∧
    (cacheAfterThreeGets.hotMsgCache.lookup "m1").isSome = true :=
  ⟨rfl, rfl⟩

/-- C2 (amended).  Whenever get takes the promotion path (hot miss, cold
hit, incremented accessCount at least 3), the resulting state holds the
id in the cold tier and in the hot tier simultaneously: promotion copies
into the hot store without deleting the cold entry. -/
theorem c2_promotion_keeps_cold_entry (st : CacheState) (id : String)
    (m : CachedMsg) (hid : id ≠ "")
    (hhot : st.hotMsgCache.lookup id = none)
    (hcold : st.msgCache.lookup id = some (.json m))
    (hac : m.accessCount + 1 ≥ 3) :
    ((getMsg (some id) st).2.msgCache.lookup id).isSome = true ∧
    ((getMsg (some id) st).2.hotMsgCache.lookup id).isSome = true := by
  unfold getMsg getBody
  simp [hid, hhot, hcold, parsePayload, hac, cacheSet_lookup_self]

/-- C2 witness: the promotion lemma applied to the concrete state reached
by save(m1) and two reads. -/
theorem c2_witness :
    cacheAfterTwoGets.hotMsgCache.lookup "m1" = none ∧
    cacheAfterTwoGets.msgCache.lookup "m1" = some (.json ⟨some "hello", 2, 100⟩) ∧
    (((getMsg (some "m1") cacheAfterTwoGets).2.msgCache.lookup "m1").isSome = true ∧
      ((getMsg (some "m1") cacheAfterTwoGets).2.hotMsgCache.lookup "m1").isSome = true) :=
  ⟨rfl, rfl,
    c2_promotion_keeps_cold_entry cacheAfterTwoGets "m1" ⟨some "hello", 2, 100⟩
      (by decide) rfl rfl (by decide)⟩

/-- C10.  The cache operations are total at the public interface: a null
id makes get return undefined without touching state and save write
nothing; an unparseable payload in either tier makes get return
undefined, leave both tiers unchanged and bump the errors metric; a
message on which serialization throws makes save leave both tiers
unchanged and bump the errors metric.  In every case the operation
returns normally. -/
theorem c10_cache_interface_total :
    (∀ st : CacheState, getMsg none st = (none, st)) ∧
    (∀ (m : WAMsg) (now : Nat) (st : CacheState), m.keyId = none →
      (saveMsg m now st).msgCache = st.msgCache ∧
      (saveMsg m now st).hotMsgCache = st.hotMsgCache) ∧
    (∀ (st : CacheState) (id : String), id ≠ "" →
      st.hotMsgCache.lookup id = some .corrupt →
      (getMsg (some id) st).1 = none ∧
      (getMsg (some id) st).2.msgCache = st.msgCache ∧
      (getMsg (some id) st).2.hotMsgCache = st.hotMsgCache ∧
      (getMsg (some id) st).2.errors = st.errors + 1) ∧
    (∀ (st : CacheState) (id : String), id ≠ "" →
      st.hotMsgCache.lookup id = none →
      st.msgCache.lookup id = some .corrupt →
      (getMsg (some id) st).1 = none ∧
      (getMsg (some id) st).2.msgCache = st.msgCache ∧
      (getMsg (some id) st).2.hotMsgCache = st.hotMsgCache ∧
      (getMsg (some id) st).2.errors = st.errors + 1) ∧
    (∀ (m : WAMsg) (id : String) (now : Nat) (st : CacheState),
      m.keyId = some id → id ≠ "" → m.serializable = false →
      (saveMsg m now st).msgCache = st.msgCache ∧
      (saveMsg m now st).hotMsgCache = st.hotMsgCache ∧
      (saveMsg m now st).errors = st.errors + 1) := by
  refine ⟨fun st => rfl, ?_, ?_, ?_, ?_⟩
  · intro m now st h
    simp [saveMsg, h]
  · intro st id hid hhot
    unfold getMsg getBody
    simp [hid, hhot, parsePayload]
  · intro st id hid hhot hcold
    unfold getMsg getBody
    simp [hid, hhot, hcold, parsePayload]
  · intro m id now st hkey hid hser
    unfold saveMsg saveBody
    simp [hkey, hid, hser]

/-- C10 witness: the totality theorem applied to the empty cache, the
corrupt-tier fixtures, the null-id message and the unserializable
message. -/
theorem c10_witness :
    getMsg none emptyCacheState = (none, emptyCacheState) ∧
    ((saveMsg wamsgNoId 5 emptyCacheState).msgCache = emptyCacheState.msgCache ∧
      (saveMsg wamsgNoId 5 emptyCacheState).hotMsgCache = emptyCacheState.hotMsgCache) ∧
    ((getMsg (some "c1") cacheWithCorruptHot).1 = none ∧
      (getMsg (some "c1") cacheWithCorruptHot).2.errors = cacheWithCorruptHot.errors + 1) ∧
    ((getMsg (some "c2") cacheWithCorruptCold).1 = none ∧
      (getMsg (some "c2") cacheWithCorruptCold).2.errors = cacheWithCorruptCold.errors + 1) ∧
    ((saveMsg wamsgBad 7 emptyCacheState).msgCache = emptyCacheState.msgCache ∧
      (saveMsg wamsgBad 7 emptyCacheState).errors = emptyCacheState.errors + 1) :=
  ⟨c10_cache_interface_total.1 emptyCacheState,
    c10_cache_interface_total.2.1 wamsgNoId 5 emptyCacheState rfl,
    ⟨(c10_cache_interface_total.2.2.1 cacheWithCorruptHot "c1" (by decide) rfl).1,
      (c10_cache_interface_total.2.2.1 cacheWithCorruptHot "c1" (by decide) rfl).2.2.2⟩,
    ⟨(c10_cache_interface_total.2.2.2.1 cacheWithCorruptCold "c2" (by decide) rfl rfl).1,
      (c10_cache_interface_total.2.2.2.1 cacheWithCorruptCold "c2" (by decide) rfl rfl).2.2.2⟩,
    ⟨(c10_cache_interface_total.2.2.2.2 wamsgBad "m2" 7 emptyCacheState rfl (by decide) rfl).1,
      (c10_cache_interface_total.2.2.2.2 wamsgBad "m2" 7 emptyCacheState rfl (by decide) rfl).2.2⟩⟩

/-- C3.  Counterexample: after three consecutive QR events on a fresh
session, none followed by an open event, nothing terminal has happened:
the ceiling test runs before the counter update, so the tenant status is
qrcode, no credentials were cleared, and the sessions list still holds
the session. -/
theorem c3_counterexample :
    (qrEvents 1 ["q1", "q2", "q3"] initQrState).status ≠ "DISCONNECTED" ∧
    (qrEvents 1 ["q1", "q2", "q3"] initQrState).credsCleared = false ∧
    (qrEvents 1 ["q1", "q2", "q3"] initQrState).sessions.any
      (fun x => x.id == 1) = true := by
  refine ⟨fun h => absurd h (by decide), rfl, rfl⟩

/-- C3 (amended).  Three consecutive QR events only bring the per-tenant
counter to 3 and leave the tenant in status qrcode; the fourth QR event
triggers the ceiling branch, which clears the stored credentials, deletes
the Baileys data, sets the tenant DISCONNECTED and stops listening — but
the sessions list still contains the session for that tenant. -/
theorem c3_qr_ceiling_on_fourth_event (whatsappId : Nat) (q1 q2 q3 q4 : String) :
    ((qrEvents whatsappId [q1, q2, q3] initQrState).status = "qrcode" ∧
      (qrEvents whatsappId [q1, q2, q3] initQrState).credsCleared = false ∧
      (qrEvents whatsappId [q1, q2, q3] initQrState).mapEntry = some 3 ∧
      (∃ x ∈ (qrEvents whatsappId [q1, q2, q3] initQrState).sessions,
        x.id = whatsappId)) ∧
    ((qrStep whatsappId q4 (qrEvents whatsappId [q1, q2, q3] initQrState)).status
        = "DISCONNECTED" ∧
      (qrStep whatsappId q4 (qrEvents whatsappId [q1, q2, q3] initQrState)).credsCleared
        = true ∧
      (qrStep whatsappId q4 (qrEvents whatsappId [q1, q2, q3] initQrState)).baileysDeleted
        = true ∧
      (qrStep whatsappId q4 (qrEvents whatsappId [q1, q2, q3] initQrState)).listening
        = false ∧
      (∃ x ∈ (qrStep whatsappId q4
          (qrEvents whatsappId [q1, q2, q3] initQrState)).sessions,
        x.id = whatsappId)) := by
  simp [qrEvents, qrStep, initQrState, qrCeilingReached]

/-- Helper: removing the first matching session from a list that holds
at most one match leaves no session with that id. -/
theorem eraseFirstSession_eliminates (whatsappId : Nat) (l : List SessionH)
    (h : l.countP (fun x => x.id == whatsappId) ≤ 1) :
    ∀ x ∈ eraseFirstSession whatsappId l, x.id ≠ whatsappId := by
  induction l with
  | nil => intro x hx; simp [eraseFirstSession] at hx
  | cons y ys ih =>
    rw [List.countP_cons] at h
    by_cases hy : y.id = whatsappId
    · have hys : eraseFirstSession whatsappId (y :: ys) = ys := by
        simp [eraseFirstSession, hy]
      rw [hys]
      intro x hx hxid
      have h1 : 0 < ys.countP (fun x => x.id == whatsappId) :=
        List.countP_pos_iff.mpr ⟨x, hx, by simp [hxid]⟩
      have h2 : (y.id == whatsappId) = true := by simp [hy]
      simp only [h2, if_true] at h
      omega
    · have hys : eraseFirstSession whatsappId (y :: ys) =
          y :: eraseFirstSession whatsappId ys := by
        simp [eraseFirstSession, hy]
      rw [hys]
      intro x hx
      rcases List.mem_cons.mp hx with hx | hx
      · subst hx; exact hy
      · have h2 : (y.id == whatsappId) = false := by simp [hy]
        simp only [h2, Bool.false_eq_true, if_false] at h
        exact ih (by omega) x hx

/-- C8.  Registry removal always completes and never raises: for an
absent id, removeWbot is a no-op returning the state unchanged; for a
present id with logout requested, whatever the logout and transport-close
calls do (including both throwing), removeWbot returns normally and the
session is removed from the list. -/
theorem c8_removeWbot_idempotent_total :
    (∀ (s : WbotState) (whatsappId : Nat) (isLogout logoutThrows closeThrows : Bool),
      (∀ x ∈ s.sessions, x.id ≠ whatsappId) →
      removeWbot logoutThrows closeThrows whatsappId isLogout s = .ok s) ∧
    (∀ (s : WbotState) (whatsappId : Nat) (logoutThrows closeThrows : Bool),
      s.sessions.any (fun x => x.id == whatsappId) = true →
      s.sessions.countP (fun x => x.id == whatsappId) ≤ 1 →
      removeWbot logoutThrows closeThrows whatsappId true s =
        .ok { logoutAttempt logoutThrows closeThrows s with
              sessions := eraseFirstSession whatsappId s.sessions } ∧
      ∀ x ∈ eraseFirstSession whatsappId s.sessions, x.id ≠ whatsappId) := by
  constructor
  · intro s whatsappId isLogout lt ct h
    have hany : s.sessions.any (fun x => x.id == whatsappId) = false := by
      rw [List.any_eq_false]
      intro x hx
      simp [h x hx]
    simp [removeWbot, hany]
  · intro s whatsappId lt ct hany hcount
    have hsess : (logoutAttempt lt ct s).sessions = s.sessions := by
      cases lt <;> cases ct <;> rfl
    constructor
    · simp [removeWbot, hany, hsess]
    · exact eraseFirstSession_eliminates whatsappId s.sessions hcount

/-- C8 witness: removal of an absent id (42) from the one-session world
is a no-op, and removal of the present id (1) with both the logout and
the close call throwing still returns normally with the session gone. -/
theorem c8_witness :
    (∀ x ∈ wbotStateOne.sessions, x.id ≠ 42) ∧
    removeWbot true true 42 true wbotStateOne = .ok wbotStateOne ∧
    (wbotStateOne.sessions.any (fun x => x.id == 1) = true ∧
      wbotStateOne.sessions.countP (fun x => x.id == 1) ≤ 1 ∧
      removeWbot true true 1 true wbotStateOne =
        .ok { logoutAttempt true true wbotStateOne with
              sessions := eraseFirstSession 1 wbotStateOne.sessions } ∧
      ∀ x ∈ eraseFirstSession 1 wbotStateOne.sessions, x.id ≠ 1) :=
  ⟨by decide,
    c8_removeWbot_idempotent_total.1 wbotStateOne 42 true true true (by decide),
    by decide, by decide,
    (c8_removeWbot_idempotent_total.2 wbotStateOne 1 true true (by decide) (by decide)).1,
    (c8_removeWbot_idempotent_total.2 wbotStateOne 1 true true (by decide) (by decide)).2⟩

/-- Helper: when an awaited external sequence throws, the error state has
the sessions and recovery map the sequence started with, provided every
effect of the sequence preserves them. -/
theorem extSeq_error_fields (ops : List (Bool × (WbotState → WbotState))) :
    ∀ s sE : WbotState,
      (∀ p ∈ ops, ∀ st, ((p.2) st).sessions = st.sessions) →
      (∀ p ∈ ops, ∀ st, ((p.2) st).recoveryStates = st.recoveryStates) →
      extSeq ops s = .error sE →
      sE.sessions = s.sessions ∧ sE.recoveryStates = s.recoveryStates := by
  induction ops with
  | nil =>
    intro s sE _ _ h
    simp [extSeq] at h
  | cons p rest ih =>
    intro s sE hsess hrec h
    obtain ⟨t, f⟩ := p
    cases t with
    | true =>
      simp [extSeq] at h
      rw [← h]
      exact ⟨rfl, rfl⟩
    | false =>
      simp [extSeq] at h
      have hstep := ih (f s) sE
        (fun p hp => hsess p (List.mem_cons_of_mem _ hp))
        (fun p hp => hrec p (List.mem_cons_of_mem _ hp)) h
      have hs := hsess (false, f) (List.mem_cons_self _ _) s
      have hr := hrec (false, f) (List.mem_cons_self _ _) s
      exact ⟨hstep.1.trans hs, hstep.2.trans hr⟩

/-- Helper: whichever recovery branch throws, the error state it leaves
behind has the sessions and recovery map the branch started with: the
throwing calls are the awaited collaborator calls, which precede the
registry and recovery-map mutations of the branch. -/
theorem runBranch_error_fields (flt : Faults) (strategy : RecoveryStrategy)
    (whatsappId : Nat) (s sE : WbotState)
    (h : runBranch flt strategy whatsappId s = .error sE) :
    sE.sessions = s.sessions ∧ sE.recoveryStates = s.recoveryStates := by
  cases strategy with
  | CLEAR_CREDENTIALS =>
    rw [runBranch] at h
    cases hseq : extSeq
      [(flt.clearCredsThrows, doClearCredentials),
       (flt.updateThrows, doUpdatePendingClearSession),
       (flt.deleteBaileysThrows, doDeleteBaileys),
       (flt.emitThrows, doEmitUpdate)] s with
    | ok s2 => rw [hseq] at h; simp at h
    | error e =>
      rw [hseq] at h
      cases h
      refine extSeq_error_fields _ s _ ?_ ?_ hseq
      · intro p hp st
        simp at hp
        rcases hp with rfl | rfl | rfl | rfl <;> rfl
      · intro p hp st
        simp at hp
        rcases hp with rfl | rfl | rfl | rfl <;> rfl
  | RECONNECT => simp [runBranch] at h
  | RETRY => simp [runBranch] at h
  | RESTART_SESSION =>
    rw [runBranch] at h
    cases hseq : extSeq [(flt.updateThrows, doUpdatePending)] s with
    | ok s2 => rw [hseq] at h; simp at h
    | error e =>
      rw [hseq] at h
      cases h
      refine extSeq_error_fields _ s _ ?_ ?_ hseq
      · intro p hp st
        simp at hp
        rcases hp with rfl
        rfl
      · intro p hp st
        simp at hp
        rcases hp with rfl
        rfl
  | MANUAL_INTERVENTION =>
    rw [runBranch] at h
    cases hseq : extSeq
      [(flt.updateThrows, doUpdateManual),
       (flt.emitThrows, doEmitUpdate)] s with
    | ok s2 => rw [hseq] at h; simp at h
    | error e =>
      rw [hseq] at h
      cases h
      refine extSeq_error_fields _ s _ ?_ ?_ hseq
      · intro p hp st
        simp at hp
        rcases hp with rfl | rfl <;> rfl
      · intro p hp st
        simp at hp
        rcases hp with rfl | rfl <;> rfl
  | NO_RECOVERY => simp [runBranch] at h

/-- C7.  If an exception is raised while executing any recovery-strategy
branch of the connection-close handler, the handler returns normally (it
is caught), the recovery-in-progress flag of that session is false
afterwards, and the session has been removed from the sessions list. -/
theorem c7_recovery_exception_failsafe (flt : Faults) (info : BaileysErrorInfo)
    (whatsappId now : Nat) (s sE : WbotState)
    (hcount : s.sessions.countP (fun x => x.id == whatsappId) ≤ 1)
    (hretry : isRetryable s.recoveryStates whatsappId info = true)
    (herr : runBranch flt info.recoveryStrategy whatsappId
      (preBranch whatsappId info.code now s) = .error sE) :
    ∃ s2, closeHandler flt info whatsappId now s = .ok s2 ∧
      (∀ x ∈ s2.sessions, x.id ≠ whatsappId) ∧
      (∀ st, s2.recoveryStates.lookup whatsappId = some st →
        st.recoveryInProgress = false) := by
  have hfields := runBranch_error_fields flt info.recoveryStrategy whatsappId
    (preBranch whatsappId info.code now s) sE herr
  refine ⟨removeWbotNoLogout whatsappId
    { sE with
      recoveryStates := setRecoveryInProgress whatsappId false sE.recoveryStates },
    ?_, ?_, ?_⟩
  · unfold closeHandler
    simp only [hretry, if_true, herr]
  · intro x hx
    have hx2 : x ∈ eraseFirstSession whatsappId s.sessions := by
      simpa [removeWbotNoLogout, hfields.1, preBranch] using hx
    exact eraseFirstSession_eliminates whatsappId s.sessions hcount x hx2
  · intro st hst
    have hst2 : (setRecoveryInProgress whatsappId false
        sE.recoveryStates).lookup whatsappId = some st := by
      simpa [removeWbotNoLogout] using hst
    exact setRecoveryInProgress_lookup_self whatsappId false sE.recoveryStates st hst2

/-- C7 witness: the fail-safe applied to the one-session world with the
badSession classification (strategy CLEAR_CREDENTIALS) whose awaited
clearCredentials call throws. -/
theorem c7_witness :
    ∃ s2, closeHandler faultsClearCreds badSessionInfo 1 0 wbotStateOne = .ok s2 ∧
      (∀ x ∈ s2.sessions, x.id ≠ 1) ∧
      (∀ st, s2.recoveryStates.lookup 1 = some st →
        st.recoveryInProgress = false) :=
  c7_recovery_exception_failsafe faultsClearCreds badSessionInfo 1 0 wbotStateOne
    (preBranch 1 badSessionInfo.code 0 wbotStateOne) (by decide) (by decide) rfl

/-- C9.  For every id with no registered session, getWbot signals the
absence by throwing AppError ERR_WAPP_NOT_INITIALIZED rather than
returning an absent value. -/
theorem c9_getWbot_absent_throws (s : WbotState) (whatsappId : Nat)
    (h : ∀ x ∈ s.sessions, x.id ≠ whatsappId) :
    getWbot s whatsappId = .error "ERR_WAPP_NOT_INITIALIZED" := by
  unfold getWbot
  have hf : s.sessions.find? (fun x => x.id == whatsappId) = none := by
    rw [List.find?_eq_none]
    intro x hx
    simp [h x hx]
  rw [hf]

/-- C9 witness: looking up id 99 in the one-session world throws the
AppError. -/
theorem c9_witness :
    (∀ x ∈ wbotStateOne.sessions, x.id ≠ 99) ∧
    getWbot wbotStateOne 99 = .error "ERR_WAPP_NOT_INITIALIZED" :=
  ⟨by decide, c9_getWbot_absent_throws wbotStateOne 99 (by decide)⟩

/-- C6 witness: a state with 10 consecutive failures and retryCount 0,
still below the connectionClosed ceiling of 5 retries. -/
theorem c6_witness :
    ([(1, recoveryStateTripped)] : RecoveryMap).lookup 1 = some recoveryStateTripped ∧
    recoveryStateTripped.consecutiveFailures ≥ 10 ∧
    recoveryStateTripped.retryCount < connectionClosedInfo.maxRetries ∧
    isRetryable [(1, recoveryStateTripped)] 1 connectionClosedInfo = false :=
  ⟨rfl, by decide, by decide,
    c6_circuit_breaker [(1, recoveryStateTripped)] 1 connectionClosedInfo
      recoveryStateTripped rfl (by decide)⟩

end WtkDev
